import Mathlib

/-!
Verification of the ScreenRecorderPro API gateway
(`netlify/functions/create-recording.js`, `netlify/functions/validate-license.js`,
and the earlier handler revisions kept in the repository).

The JavaScript handlers are shallowly embedded: JSON values become Lean
structures with `Option` fields, JavaScript numbers that can be `NaN` become
`JsNum`, the external capture provider becomes an explicit `ProviderResponse`
oracle, and each handler is a pure function from the incoming event (plus the
environment's API key and the provider oracle) to the HTTP response together
with the query parameters of the outbound provider call, when one is made.
-/

namespace SRP

/-- A JavaScript number as produced by `parseInt`: an integer or `NaN`. -/
inductive JsNum where
  | int (n : Int)
  | nan
  deriving DecidableEq, Repr

/-- Digit run to a natural number, most significant digit first. -/
def digitsToNat (cs : List Char) : Nat :=
  cs.foldl (fun acc c => acc * 10 + (c.toNat - 48)) 0

/-- Models the JavaScript runtime's `parseInt` on decimal inputs: skip leading
whitespace, read an optional sign, then the longest run of decimal digits;
`NaN` when no digit follows. -/
def parseIntJS (s : String) : JsNum :=
  let cs := s.toList.dropWhile (fun c => c = ' ' || c = '\t' || c = '\n' || c = '\r')
  match cs with
  | '-' :: rest =>
      let ds := rest.takeWhile Char.isDigit
      if ds.isEmpty then .nan else .int (-(digitsToNat ds : Int))
  | '+' :: rest =>
      let ds := rest.takeWhile Char.isDigit
      if ds.isEmpty then .nan else .int (digitsToNat ds)
  | _ =>
      let ds := cs.takeWhile Char.isDigit
      if ds.isEmpty then .nan else .int (digitsToNat ds)

/-- JavaScript `a || b` for a possibly-absent string `a`:
`undefined` and the empty string are falsy. -/
def jsOrStr (a : Option String) (b : String) : String :=
  match a with
  | some s => if s = "" then b else s
  | none => b

/-- JavaScript truthiness of a possibly-absent string. -/
def jsTruthyStr (a : Option String) : Bool :=
  match a with
  | some s => s ≠ ""
  | none => false

/-- JavaScript `x > m` where `x` may be `NaN`: every comparison with `NaN`
is false. -/
def jsGtNum (x : JsNum) (m : Int) : Bool :=
  match x with
  | .int n => n > m
  | .nan => false

/-- JavaScript `Math.min(x, m)` where `x` may be `NaN`: `NaN` propagates. -/
def jsMinNum (x : JsNum) (m : Int) : JsNum :=
  match x with
  | .int n => .int (min n m)
  | .nan => .nan

/-- JavaScript `x.toString()` on a number: `NaN` prints as `"NaN"`. -/
def jsNumToString (x : JsNum) : String :=
  match x with
  | .int n => toString n
  | .nan => "NaN"

/-! ### Base64 (Node `Buffer.toString('base64')`, RFC 4648 alphabet) -/

/-- The standard base64 alphabet, by sextet value. -/
def b64Char (n : Nat) : Char :=
  if n < 26 then Char.ofNat (65 + n)
  else if n < 52 then Char.ofNat (97 + (n - 26))
  else if n < 62 then Char.ofNat (48 + (n - 52))
  else if n = 62 then '+'
  else '/'

/-- Inverse of the base64 alphabet; `none` off the alphabet. -/
def b64Val (c : Char) : Option Nat :=
  let n := c.toNat
  if 65 ≤ n ∧ n ≤ 90 then some (n - 65)
  else if 97 ≤ n ∧ n ≤ 122 then some (n - 97 + 26)
  else if 48 ≤ n ∧ n ≤ 57 then some (n - 48 + 52)
  else if n = 43 then some 62
  else if n = 47 then some 63
  else none

/-- Base64-encode a byte list (bytes as naturals below 256), with `=` padding,
as Node's `Buffer.prototype.toString('base64')` does. -/
def base64Encode : List Nat → List Char
  | [] => []
  | [a] =>
      [b64Char (a / 4), b64Char (a % 4 * 16), '=', '=']
  | [a, b] =>
      [b64Char (a / 4), b64Char (a % 4 * 16 + b / 16), b64Char (b % 16 * 4), '=']
  | a :: b :: c :: rest =>
      b64Char (a / 4) :: b64Char (a % 4 * 16 + b / 16) ::
      b64Char (b % 16 * 4 + c / 64) :: b64Char (c % 64) :: base64Encode rest

/-- Base64-decode; `none` on malformed input. -/
def base64Decode : List Char → Option (List Nat)
  | [] => some []
  | c1 :: c2 :: c3 :: c4 :: rest =>
      if c3 = '=' ∧ c4 = '=' ∧ rest = [] then do
        let v1 ← b64Val c1
        let v2 ← b64Val c2
        some [v1 * 4 + v2 / 16]
      else if c4 = '=' ∧ rest = [] then do
        let v1 ← b64Val c1
        let v2 ← b64Val c2
        let v3 ← b64Val c3
        some [v1 * 4 + v2 / 16, v2 % 16 * 16 + v3 / 4]
      else do
        let v1 ← b64Val c1
        let v2 ← b64Val c2
        let v3 ← b64Val c3
        let v4 ← b64Val c4
        let tail ← base64Decode rest
        some ((v1 * 4 + v2 / 16) :: (v2 % 16 * 16 + v3 / 4) :: (v3 % 4 * 64 + v4) :: tail)
  | _ => none

theorem b64Val_b64Char {n : Nat} (h : n < 64) : b64Val (b64Char n) = some n := by
  interval_cases n <;> decide

theorem b64Char_ne_pad {n : Nat} (h : n < 64) : b64Char n ≠ '=' := by
  interval_cases n <;> decide

/-- Decoding inverts encoding on every byte list. -/
theorem base64_roundtrip (bs : List Nat) (h : ∀ b ∈ bs, b < 256) :
    base64Decode (base64Encode bs) = some bs := by
  match bs with
  | [] => rfl
  | [a] =>
      have ha : a < 256 := h a (by simp)
      have h1 : a / 4 < 64 := by omega
      have h2 : a % 4 * 16 < 64 := by omega
      simp [base64Encode, base64Decode, b64Val_b64Char h1, b64Val_b64Char h2]
      omega
  | [a, b] =>
      have ha : a < 256 := h a (by simp)
      have hb : b < 256 := h b (by simp)
      have h1 : a / 4 < 64 := by omega
      have h2 : a % 4 * 16 + b / 16 < 64 := by omega
      have h3 : b % 16 * 4 < 64 := by omega
      simp [base64Encode, base64Decode, b64Val_b64Char h1, b64Val_b64Char h2,
        b64Val_b64Char h3, b64Char_ne_pad h3]
      omega
  | a :: b :: c :: rest =>
      have ha : a < 256 := h a (by simp)
      have hb : b < 256 := h b (by simp)
      have hc : c < 256 := h c (by simp)
      have ih := base64_roundtrip rest (fun x hx => h x (by simp [hx]))
      have h1 : a / 4 < 64 := by omega
      have h2 : a % 4 * 16 + b / 16 < 64 := by omega
      have h3 : b % 16 * 4 + c / 64 < 64 := by omega
      have h4 : c % 64 < 64 := by omega
      simp [base64Encode, base64Decode, b64Val_b64Char h1, b64Val_b64Char h2,
        b64Val_b64Char h3, b64Val_b64Char h4, b64Char_ne_pad h3, b64Char_ne_pad h4, ih]
      omega
termination_by bs.length

/-! ### Request/response data model -/

/-- The `options` object of a capture request (string-valued JSON fields). -/
structure RecOptions where
  format : Option String := none
  duration : Option String := none
  viewport_width : Option String := none
  viewport_height : Option String := none
  device_type : Option String := none
  deriving DecidableEq, Repr

/-- The parsed JSON body of a `create-recording` request. -/
structure RequestData where
  url : Option String := none
  options : Option RecOptions := none
  license_key : Option String := none
  site_url : Option String := none
  deriving DecidableEq, Repr

/-- Outcome of `JSON.parse` on a present request body: a parse failure
(carrying the engine's error message) or the parsed data. -/
inductive RawBody where
  | malformed (errMsg : String)
  | parsed (data : RequestData)
  deriving DecidableEq, Repr

/-- The inbound Netlify event: method, the `x-plugin-license` header, and the
raw body (`none` when absent, in which case the handler parses `'{}'`). -/
structure Event where
  httpMethod : String
  xPluginLicense : Option String := none
  body : Option RawBody := none
  deriving DecidableEq, Repr

/-- What the capture provider does when called: a 2xx response carrying the
binary payload bytes, a non-2xx status with a text error body, an abort
(the gateway's cancellation timer fired first), or a network error. -/
inductive ProviderResponse where
  | ok (bodyBytes : List Nat)
  | httpError (status : Nat) (errorText : String)
  | aborted
  | networkError (msg : String)
  deriving DecidableEq, Repr

/-- The query parameters of the outbound `GET /animate` call, as built by
`URLSearchParams` in `callScreenshotOneAPI`. -/
structure ProviderParams where
  access_key : String
  url : String
  scenario : String
  format : String
  duration : String
  scroll_duration : String
  scroll_start_immediately : String
  scroll_complete : String
  viewport_width : String
  viewport_height : String
  viewport_mobile : String
  block_ads : String
  block_cookie_banners : String
  block_trackers : String
  timeout : String
  deriving DecidableEq, Repr

/-- The gateway's JSON response, as a bag of the fields that any of the
handlers ever sets (`none` encodes an absent field). -/
structure HttpResponse where
  statusCode : Nat
  message : Option String := none
  error : Option String := none
  max_duration : Option Int := none
  requested_duration : Option JsNum := none
  success : Option Bool := none
  video_data : Option (List Char) := none
  file_size : Option Nat := none
  duration : Option JsNum := none
  valid : Option Bool := none
  plan : Option String := none
  site_url : Option String := none
  current_usage : Option Nat := none
  limit : Option Nat := none
  deriving DecidableEq, Repr

/-- Result object of `validateLicense` in `create-recording.js`. -/
structure LicenseCheck where
  valid : Bool
  plan : Option String := none
  message : Option String := none
  deriving DecidableEq, Repr

/-- `validateLicense` of `create-recording.js`: free keys by the length
heuristic, paid keys by length at least 10, anything in between invalid. -/
def validateLicense (licenseKey : String) : LicenseCheck :=
  if licenseKey = "free" ∨ licenseKey = "" ∨ licenseKey.length < 5 then
    { valid := true, plan := some "free" }
  else if licenseKey.length ≥ 10 then
    { valid := true, plan := some "starter" }
  else
    { valid := false, message := some "Invalid license key format" }

/-- `getMaxDurationForPlan` of `create-recording.js`: the `netlifyLimits`
table, with the `free` entry as fallback for unknown plans. -/
def getMaxDurationForPlan (plan : String) : Int :=
  if plan = "free" then 5
  else if plan = "starter" then 7
  else if plan = "pro" then 7
  else if plan = "agency" then 7
  else 5

/-! ### `callScreenshotOneAPI` (current revision) -/

/-- `const apiTimeout = '8'` — the provider-side timeout sent in the query. -/
def apiTimeoutSeconds : String := "8"

/-- `setTimeout(() => controller.abort(), 8000)` — the gateway's cancellation
timer, in milliseconds. -/
def fetchAbortTimeoutMs : Nat := 8000

/-- Result object of `callScreenshotOneAPI` in `create-recording.js`. -/
structure CallResult where
  success : Bool
  video_data : Option (List Char) := none
  file_size : Option Nat := none
  duration : Option JsNum := none
  error : Option String := none
  deriving DecidableEq, Repr

/-- The `URLSearchParams` built by the current `callScreenshotOneAPI`. -/
def buildProviderParams (key url : String) (options : RecOptions) : ProviderParams where
  access_key := key
  url := url
  scenario := "scroll"
  format := jsOrStr options.format "mp4"
  duration := jsOrStr options.duration "5"
  scroll_duration := "1000"
  scroll_start_immediately := "true"
  scroll_complete := "true"
  viewport_width := jsOrStr options.viewport_width "414"
  viewport_height := jsOrStr options.viewport_height "896"
  viewport_mobile := if options.device_type = some "mobile" then "true" else "false"
  block_ads := "true"
  block_cookie_banners := "true"
  block_trackers := "true"
  timeout := apiTimeoutSeconds

/-- `callScreenshotOneAPI` of the current `create-recording.js`. Returns its
result object together with the parameters of the outbound call, `none` when
no call was made. The provider's behaviour is the explicit oracle. -/
def callScreenshotOneAPI (apiKey : Option String) (url : String) (options : RecOptions)
    (provider : ProviderResponse) : CallResult × Option ProviderParams :=
  if ¬ jsTruthyStr apiKey then
    ({ success := false, error := some "ScreenshotOne API key not configured" }, none)
  else
    let duration := jsOrStr options.duration "5"
    let params := buildProviderParams (apiKey.getD "") url options
    match provider with
    | .ok bytes =>
        if bytes.length = 0 then
          ({ success := false, error := some "ScreenshotOne returned empty response" },
            some params)
        else
          ({ success := true, video_data := some (base64Encode bytes),
             file_size := some bytes.length, duration := some (parseIntJS duration) },
            some params)
    | .httpError status errorText =>
        ({ success := false,
           error := some ("ScreenshotOne API failed with status " ++ toString status
             ++ ": " ++ errorText) }, some params)
    | .aborted =>
        ({ success := false,
           error := some "ScreenshotOne API request timed out (8 seconds)" }, some params)
    | .networkError msg =>
        ({ success := false, error := some ("Network error: " ++ msg) }, some params)

/-! ### The current `create-recording` handler -/

/-- The license token resolution
`event.headers['x-plugin-license'] || license_key || 'free'`. -/
def resolveLicense (event : Event) (data : RequestData) : String :=
  jsOrStr event.xPluginLicense (jsOrStr data.license_key "free")

/-- The `exports.handler` of the current `create-recording.js`, as a function
of the environment's API key, the event, and the provider oracle. The second
component is the outbound call's parameters (`none`: no call attempted). -/
def handler (apiKey : Option String) (event : Event) (provider : ProviderResponse) :
    HttpResponse × Option ProviderParams :=
  if event.httpMethod = "OPTIONS" then
    ({ statusCode := 200, message := some "CORS preflight successful" }, none)
  else if event.httpMethod ≠ "POST" then
    ({ statusCode := 405, message := some "Method not allowed. Use POST." }, none)
  else if ¬ jsTruthyStr apiKey then
    ({ statusCode := 500,
       message := some "Server configuration error: ScreenshotOne API key not configured",
       error := some "MISSING_API_KEY" }, none)
  else
    match event.body.getD (.parsed {}) with
    | .malformed errMsg =>
        ({ statusCode := 500, message := some ("Internal server error: " ++ errMsg) }, none)
    | .parsed data =>
        let licenseHeader := resolveLicense event data
        if ¬ jsTruthyStr data.url then
          ({ statusCode := 400, message := some "URL is required" }, none)
        else
          let licenseCheck := validateLicense licenseHeader
          if ¬ licenseCheck.valid then
            ({ statusCode := 403, message := licenseCheck.message }, none)
          else
            let maxDuration := getMaxDurationForPlan (licenseCheck.plan.getD "")
            let requestedDuration := parseIntJS (jsOrStr (data.options.bind (·.duration)) "3")
            if jsGtNum requestedDuration maxDuration then
              ({ statusCode := 400,
                 message := some ("Recording duration limited to " ++ toString maxDuration
                   ++ " seconds on current plan. Upgrade for longer recordings."),
                 error := some "DURATION_LIMIT_EXCEEDED",
                 max_duration := some maxDuration,
                 requested_duration := some requestedDuration }, none)
            else
              let safeDuration := jsMinNum requestedDuration maxDuration
              let opts := { data.options.getD {} with
                            duration := some (jsNumToString safeDuration) }
              let result := callScreenshotOneAPI apiKey (data.url.getD "") opts provider
              if result.1.success then
                ({ statusCode := 200, success := some true,
                   video_data := result.1.video_data,
                   file_size := result.1.file_size,
                   duration := some safeDuration,
                   message := some ("Recording created successfully ("
                     ++ jsNumToString safeDuration ++ "s)") }, result.2)
              else
                ({ statusCode := 500,
                   message := some ("Failed to create recording: "
                     ++ result.1.error.getD "undefined") }, result.2)

/-- A POST event with the given header and raw body. -/
def postEvent (hdr : Option String) (b : RawBody) : Event :=
  { httpMethod := "POST", xPluginLicense := hdr, body := some b }

/-! ### The earlier `create-recording` revision kept as `src/unnamed/part_000` -/

namespace Part000

/-- `timeout: '90'` — the provider-side timeout of the part_000 revision. -/
def apiTimeoutSeconds : String := "90"

/-- `setTimeout(() => controller.abort(), 90000)` in the part_000 revision. -/
def fetchAbortTimeoutMs : Nat := 90000

/-- Result of `checkUsageLimits` in part_000. -/
structure UsageCheck where
  can_create : Bool
  current_usage : Nat
  limit : Nat
  message : String
  deriving DecidableEq, Repr

/-- `checkUsageLimits` of part_000: the limits table, zero recorded usage,
and `canCreate` unconditionally true. -/
def checkUsageLimits (plan : String) : UsageCheck :=
  let limit : Nat :=
    if plan = "free" then 1
    else if plan = "starter" then 50
    else if plan = "pro" then 200
    else if plan = "agency" then 500
    else 1
  { can_create := true, current_usage := 0, limit := limit, message := "Usage OK" }

/-- The `URLSearchParams` built by part_000's `callScreenshotOneAPI`. -/
def buildProviderParams (key url : String) (options : RecOptions) : ProviderParams where
  access_key := key
  url := url
  scenario := "scroll"
  format := jsOrStr options.format "mp4"
  duration := jsOrStr options.duration "5"
  scroll_duration := "1500"
  scroll_start_immediately := "true"
  scroll_complete := "true"
  viewport_width := jsOrStr options.viewport_width "414"
  viewport_height := jsOrStr options.viewport_height "896"
  viewport_mobile := if options.device_type = some "mobile" then "true" else "false"
  block_ads := "true"
  block_cookie_banners := "true"
  block_trackers := "true"
  timeout := apiTimeoutSeconds

/-- `callScreenshotOneAPI` of the part_000 revision. -/
def callScreenshotOneAPI (apiKey : Option String) (url : String) (options : RecOptions)
    (provider : ProviderResponse) : CallResult × Option ProviderParams :=
  if ¬ jsTruthyStr apiKey then
    ({ success := false,
       error := some "ScreenshotOne API key not configured in environment variables" }, none)
  else
    let params := buildProviderParams (apiKey.getD "") url options
    match provider with
    | .ok bytes =>
        if bytes.length = 0 then
          ({ success := false, error := some "ScreenshotOne returned empty response" },
            some params)
        else
          ({ success := true, video_data := some (base64Encode bytes),
             file_size := some bytes.length,
             duration := some (parseIntJS (jsOrStr options.duration "5")) },
            some params)
    | .httpError status errorText =>
        ({ success := false,
           error := some ("ScreenshotOne API failed with status " ++ toString status
             ++ ": " ++ errorText) }, some params)
    | .aborted =>
        ({ success := false,
           error := some "ScreenshotOne API request timed out (90 seconds)" }, some params)
    | .networkError msg =>
        ({ success := false, error := some ("Network error: " ++ msg) }, some params)

/-- The `exports.handler` of the part_000 revision. `urlValid` is the oracle
for whether `new URL(url)` succeeds (absolute-URL parsing). -/
def handler (apiKey : Option String) (event : Event) (urlValid : String → Bool)
    (provider : ProviderResponse) : HttpResponse × Option ProviderParams :=
  if event.httpMethod = "OPTIONS" then
    ({ statusCode := 200, message := some "CORS preflight successful" }, none)
  else if event.httpMethod ≠ "POST" then
    ({ statusCode := 405, message := some "Method not allowed. Use POST." }, none)
  else if ¬ jsTruthyStr apiKey then
    ({ statusCode := 500,
       message := some "Server configuration error: ScreenshotOne API key not configured",
       error := some "MISSING_API_KEY" }, none)
  else
    match event.body.getD (.parsed {}) with
    | .malformed _ =>
        ({ statusCode := 400, message := some "Invalid JSON in request body",
           error := some "JSON_PARSE_ERROR" }, none)
    | .parsed data =>
        let licenseHeader := resolveLicense event data
        if ¬ jsTruthyStr data.url then
          ({ statusCode := 400, message := some "URL is required",
             error := some "MISSING_URL" }, none)
        else if ¬ urlValid (data.url.getD "") then
          ({ statusCode := 400, message := some "Invalid URL format",
             error := some "INVALID_URL" }, none)
        else
          let licenseCheck := validateLicense licenseHeader
          if ¬ licenseCheck.valid then
            ({ statusCode := 403, message := licenseCheck.message,
               error := some "INVALID_LICENSE" }, none)
          else
            let usageCheck := checkUsageLimits (licenseCheck.plan.getD "")
            if ¬ usageCheck.can_create then
              ({ statusCode := 402, message := some usageCheck.message,
                 current_usage := some usageCheck.current_usage,
                 limit := some usageCheck.limit,
                 error := some "USAGE_LIMIT_EXCEEDED" }, none)
            else
              let result := callScreenshotOneAPI apiKey (data.url.getD "")
                (data.options.getD {}) provider
              if result.1.success then
                ({ statusCode := 200, success := some true,
                   video_data := result.1.video_data,
                   file_size := result.1.file_size,
                   duration := result.1.duration,
                   message := some "Recording created successfully" }, result.2)
              else
                ({ statusCode := 500,
                   message := some ("Failed to create recording: "
                     ++ result.1.error.getD "undefined"),
                   error := some "SCREENSHOTONE_ERROR" }, result.2)

end Part000

/-! ### The `validate-license` endpoint (`netlify/functions/validate-license.js`) -/

/-- Outcome of `JSON.parse(event.body)` plus the destructuring in the
validate-license handler: `malformed` covers every throwing case (absent
body, non-JSON body, JSON that is not an object), `parsed` the object case. -/
inductive VLBody where
  | malformed (errMsg : String)
  | parsed (license_key : Option String) (site_url : Option String)
  deriving DecidableEq, Repr

/-- The inbound event of the validate-license endpoint. -/
structure VLEvent where
  httpMethod : String
  body : VLBody := .malformed ""
  deriving DecidableEq, Repr

namespace ValidateLicense

/-- `isValid` of validate-license.js:
`license_key === 'free' || (license_key && license_key.length > 10)`. -/
def isValidKey (license_key : Option String) : Bool :=
  license_key = some "free" ∨ (jsTruthyStr license_key ∧ (license_key.getD "").length > 10)

/-- `plan` of validate-license.js: `license_key === 'free' ? 'free' : 'starter'`. -/
def planOfKey (license_key : Option String) : String :=
  if license_key = some "free" then "free" else "starter"

/-- The `exports.handler` of `validate-license.js`. The GET liveness
response's timestamp is a wall-clock value and is not modelled. -/
def handler (event : VLEvent) : HttpResponse :=
  if event.httpMethod = "OPTIONS" then
    { statusCode := 200, message := some "CORS OK" }
  else if event.httpMethod = "GET" then
    { statusCode := 200, message := some "Screen Recorder Pro API is online" }
  else if event.httpMethod ≠ "POST" then
    { statusCode := 405, message := some "Method not allowed" }
  else
    match event.body with
    | .malformed errMsg =>
        { statusCode := 500, message := some "Validation error", error := some errMsg }
    | .parsed license_key site_url =>
        let isValid := isValidKey license_key
        { statusCode := if isValid then 200 else 403,
          valid := some isValid,
          plan := some (planOfKey license_key),
          site_url := site_url,
          message := some (if isValid then "License valid" else "Invalid license") }

end ValidateLicense

/-! ### Helper lemmas -/

theorem toDigitsCore_length_lt (b : Nat) :
    ∀ (fuel n : Nat) (ds : List Char),
      ds.length < (Nat.toDigitsCore b (fuel + 1) n ds).length := by
  intro fuel
  induction fuel with
  | zero =>
      intro n ds
      simp only [Nat.toDigitsCore]
      split
      · simp
      · simp [Nat.toDigitsCore]
  | succ f ih =>
      intro n ds
      simp only [Nat.toDigitsCore]
      split
      · simp
      · exact lt_trans (by simp) (ih _ _)

theorem nat_repr_ne_empty (n : Nat) : Nat.repr n ≠ "" := by
  intro he
  have h := toDigitsCore_length_lt 10 n n []
  have hnil : Nat.toDigitsCore 10 (n + 1) n [] = [] := by
    have := congrArg String.data he
    simpa [Nat.repr, Nat.toDigits, List.asString] using this
  rw [hnil] at h
  simp at h

theorem int_toString_ne_empty (n : Int) : toString n ≠ "" := by
  cases n with
  | ofNat m => exact nat_repr_ne_empty m
  | negSucc m =>
      intro he
      have := congrArg String.data he
      simp [toString, Int.repr, String.data_append] at this

theorem jsNumToString_ne_empty (x : JsNum) : jsNumToString x ≠ "" := by
  cases x with
  | int n => exact int_toString_ne_empty n
  | nan => decide

theorem jsOrStr_some_of_ne {s : String} (b : String) (h : s ≠ "") :
    jsOrStr (some s) b = s := by
  simp [jsOrStr, h]

/-- Once the license gate passes, no later branch of the current handler
produces a 403. -/
theorem handler_ne_403_of_valid (apiKey hdr : Option String) (data : RequestData)
    (provider : ProviderResponse)
    (hkey : jsTruthyStr apiKey = true) (hurl : jsTruthyStr data.url = true)
    (hv : (validateLicense (resolveLicense (postEvent hdr (.parsed data)) data)).valid
      = true) :
    (handler apiKey (postEvent hdr (.parsed data)) provider).1.statusCode ≠ 403 := by
  simp only [handler, postEvent] at *
  simp [hkey, hurl, hv]
  split <;> (try split) <;> simp

/-! ### Claim theorems -/

/-- C8: for every POST request with the `SCREENSHOTONE_API_KEY` environment
value absent, the current handler answers 500 with error `MISSING_API_KEY`
and makes no outbound provider call. -/
theorem missing_api_key_no_call (apiKey : Option String) (event : Event)
    (provider : ProviderResponse)
    (hpost : event.httpMethod = "POST") (hkey : jsTruthyStr apiKey = false) :
    (handler apiKey event provider).1.statusCode = 500 ∧
    (handler apiKey event provider).1.error = some "MISSING_API_KEY" ∧
    (handler apiKey event provider).2 = none := by
  simp [handler, hpost, hkey]

theorem missing_api_key_no_call_witness :
    (handler none (postEvent none (.parsed { url := some "https://example.com" }))
      (.ok [1])).1.statusCode = 500 ∧
    (handler none (postEvent none (.parsed { url := some "https://example.com" }))
      (.ok [1])).1.error = some "MISSING_API_KEY" ∧
    (handler none (postEvent none (.parsed { url := some "https://example.com" }))
      (.ok [1])).2 = none :=
  missing_api_key_no_call none
    (postEvent none (.parsed { url := some "https://example.com" })) (.ok [1])
    (by decide) (by decide)

/-- C4: the resolved license token (header `x-plugin-license` preferred, then
the body's `license_key`, defaulting to `"free"`) classifies by length:
below 5 (which covers the empty token and `"free"` itself) the plan is
`free` and the request proceeds; at least 10 the plan is `starter` and the
request proceeds; lengths 5 to 9 make the handler answer 403. -/
theorem license_gate_classification (apiKey hdr : Option String) (data : RequestData)
    (provider : ProviderResponse)
    (hkey : jsTruthyStr apiKey = true) (hurl : jsTruthyStr data.url = true)
    (t : String) (ht : resolveLicense (postEvent hdr (.parsed data)) data = t) :
    ((t.length < 5 ∨ t = "free") →
        validateLicense t = { valid := true, plan := some "free" } ∧
        (handler apiKey (postEvent hdr (.parsed data)) provider).1.statusCode ≠ 403) ∧
    (10 ≤ t.length →
        validateLicense t = { valid := true, plan := some "starter" } ∧
        (handler apiKey (postEvent hdr (.parsed data)) provider).1.statusCode ≠ 403) ∧
    (5 ≤ t.length ∧ t.length ≤ 9 →
        (validateLicense t).valid = false ∧
        (handler apiKey (postEvent hdr (.parsed data)) provider).1.statusCode = 403) := by
  refine ⟨?_, ?_, ?_⟩
  · intro h
    have hc : t = "free" ∨ t = "" ∨ t.length < 5 := by
      rcases h with h | h
      · exact Or.inr (Or.inr h)
      · exact Or.inl h
    have hvl : validateLicense t = { valid := true, plan := some "free" } := by
      rw [validateLicense, if_pos hc]
    refine ⟨hvl, handler_ne_403_of_valid apiKey hdr data provider hkey hurl ?_⟩
    rw [ht, hvl]
  · intro h
    have hne : ¬(t = "free" ∨ t = "" ∨ t.length < 5) := by
      rintro (rfl | rfl | hlt)
      · exact absurd h (by decide)
      · exact absurd h (by decide)
      · omega
    have hvl : validateLicense t = { valid := true, plan := some "starter" } := by
      rw [validateLicense, if_neg hne, if_pos h]
    refine ⟨hvl, handler_ne_403_of_valid apiKey hdr data provider hkey hurl ?_⟩
    rw [ht, hvl]
  · rintro ⟨h5, h9⟩
    have hne : ¬(t = "free" ∨ t = "" ∨ t.length < 5) := by
      rintro (rfl | rfl | hlt)
      · exact absurd h5 (by decide)
      · exact absurd h5 (by decide)
      · omega
    have hge : ¬(t.length ≥ 10) := by omega
    have hvl : (validateLicense t).valid = false := by
      rw [validateLicense, if_neg hne, if_neg hge]
    refine ⟨hvl, ?_⟩
    have hmsg : (validateLicense t).message = some "Invalid license key format" := by
      rw [validateLicense, if_neg hne, if_neg hge]
    simp only [handler, postEvent] at *
    simp [hkey, hurl, ht, hvl]

theorem license_gate_classification_witness :
    (handler (some "apikey") (postEvent (some "abcdef")
        (.parsed { url := some "https://example.com" })) (.ok [1])).1.statusCode = 403 :=
  ((license_gate_classification (some "apikey") (some "abcdef")
      { url := some "https://example.com" } (.ok [1]) (by decide) (by decide)
      "abcdef" (by decide)).2.2 (by decide)).2

/-- C1: with a resolved plan, a parsed requested duration strictly above the
plan's maximum from the `netlifyLimits` table yields a 400 with error
`DURATION_LIMIT_EXCEEDED` echoing `max_duration` and `requested_duration`,
and no provider call; a parsed duration at most the maximum is forwarded
unchanged as the `duration` query parameter of the provider call. -/
theorem duration_limit_policy (apiKey hdr : Option String) (data : RequestData)
    (provider : ProviderResponse)
    (hkey : jsTruthyStr apiKey = true) (hurl : jsTruthyStr data.url = true)
    (hv : (validateLicense (resolveLicense (postEvent hdr (.parsed data)) data)).valid
      = true)
    (maxD : Int)
    (hmax : getMaxDurationForPlan
      ((validateLicense (resolveLicense (postEvent hdr (.parsed data)) data)).plan.getD "")
      = maxD)
    (n : Int)
    (hn : parseIntJS (jsOrStr (data.options.bind (·.duration)) "3") = .int n) :
    (maxD < n →
        (handler apiKey (postEvent hdr (.parsed data)) provider).1.statusCode = 400 ∧
        (handler apiKey (postEvent hdr (.parsed data)) provider).1.error
          = some "DURATION_LIMIT_EXCEEDED" ∧
        (handler apiKey (postEvent hdr (.parsed data)) provider).1.max_duration
          = some maxD ∧
        (handler apiKey (postEvent hdr (.parsed data)) provider).1.requested_duration
          = some (.int n) ∧
        (handler apiKey (postEvent hdr (.parsed data)) provider).2 = none) ∧
    (n ≤ maxD →
        ∃ p, (handler apiKey (postEvent hdr (.parsed data)) provider).2 = some p ∧
          p.duration = toString n) := by
  constructor
  · intro h
    have hgt : jsGtNum (.int n) maxD = true := by
      simp [jsGtNum]; omega
    simp only [handler, postEvent] at *
    simp [hkey, hurl, hv, hn, hmax, hgt]
  · intro h
    have hgt : jsGtNum (.int n) maxD = false := by
      simp [jsGtNum]; omega
    have hmin : jsMinNum (.int n) maxD = .int n := by
      simp [jsMinNum, min_eq_left h]
    simp only [handler, postEvent] at *
    simp only [hkey, hurl, hv, hn, hmax, hgt, hmin, Bool.not_true, Bool.false_eq_true,
      if_false, ite_false, Bool.not_false, ite_true, Option.getD_some]
    simp [callScreenshotOneAPI, hkey, jsNumToString]
    cases provider with
    | ok bytes =>
        by_cases hb : bytes = [] <;>
          simp [hb, buildProviderParams, jsOrStr_some_of_ne _ (int_toString_ne_empty n)]
    | httpError status errorText =>
        simp [buildProviderParams, jsOrStr_some_of_ne _ (int_toString_ne_empty n)]
    | aborted =>
        simp [buildProviderParams, jsOrStr_some_of_ne _ (int_toString_ne_empty n)]
    | networkError msg =>
        simp [buildProviderParams, jsOrStr_some_of_ne _ (int_toString_ne_empty n)]

theorem duration_limit_policy_witness :
    ((handler (some "apikey") (postEvent none
        (.parsed { url := some "https://example.com",
                   options := some { duration := some "9" } })) (.ok [1])).1.statusCode = 400 ∧
      (handler (some "apikey") (postEvent none
        (.parsed { url := some "https://example.com",
                   options := some { duration := some "9" } })) (.ok [1])).1.error
        = some "DURATION_LIMIT_EXCEEDED" ∧
      (handler (some "apikey") (postEvent none
        (.parsed { url := some "https://example.com",
                   options := some { duration := some "9" } })) (.ok [1])).1.max_duration
        = some 5 ∧
      (handler (some "apikey") (postEvent none
        (.parsed { url := some "https://example.com",
                   options := some { duration := some "9" } })) (.ok [1])).1.requested_duration
        = some (.int 9) ∧
      (handler (some "apikey") (postEvent none
        (.parsed { url := some "https://example.com",
                   options := some { duration := some "9" } })) (.ok [1])).2 = none) ∧
    (∃ p, (handler (some "apikey") (postEvent none
        (.parsed { url := some "https://example.com",
                   options := some { duration := some "4" } })) (.ok [1])).2 = some p ∧
      p.duration = toString (4 : Int)) :=
  ⟨(duration_limit_policy (some "apikey") none
      { url := some "https://example.com", options := some { duration := some "9" } }
      (.ok [1]) (by decide) (by decide) (by decide) 5 (by decide) 9 (by decide)).1
      (by decide),
   (duration_limit_policy (some "apikey") none
      { url := some "https://example.com", options := some { duration := some "4" } }
      (.ok [1]) (by decide) (by decide) (by decide) 5 (by decide) 4 (by decide)).2
      (by decide)⟩

/-- C10: a non-numeric duration string parses to `NaN`; the comparison
`NaN > maxDuration` is false, so the duration gate never answers 400
`DURATION_LIMIT_EXCEEDED`, and `Math.min(NaN, max).toString() = "NaN"` is
forwarded as the `duration` query parameter of the provider call. -/
theorem nan_duration_bypasses_limit (apiKey hdr : Option String) (data : RequestData)
    (provider : ProviderResponse)
    (hkey : jsTruthyStr apiKey = true) (hurl : jsTruthyStr data.url = true)
    (hv : (validateLicense (resolveLicense (postEvent hdr (.parsed data)) data)).valid
      = true)
    (hnan : parseIntJS (jsOrStr (data.options.bind (·.duration)) "3") = .nan) :
    (handler apiKey (postEvent hdr (.parsed data)) provider).1.error
      ≠ some "DURATION_LIMIT_EXCEEDED" ∧
    ∃ p, (handler apiKey (postEvent hdr (.parsed data)) provider).2 = some p ∧
      p.duration = "NaN" := by
  have hgt : jsGtNum .nan (getMaxDurationForPlan
      ((validateLicense (resolveLicense (postEvent hdr (.parsed data)) data)).plan.getD ""))
      = false := by
    simp [jsGtNum]
  have hmin : ∀ m : Int, jsMinNum .nan m = .nan := by
    intro m; simp [jsMinNum]
  simp only [handler, postEvent] at *
  simp only [hkey, hurl, hv, hnan, hgt, hmin, Bool.not_true, Bool.false_eq_true,
    if_false, ite_false, Bool.not_false, ite_true, Option.getD_some]
  simp [callScreenshotOneAPI, hkey, jsNumToString]
  constructor
  · split <;> (try split) <;> simp
  · cases provider with
    | ok bytes =>
        by_cases hb : bytes = [] <;> simp [hb, buildProviderParams, jsOrStr]
    | httpError status errorText => simp [buildProviderParams, jsOrStr]
    | aborted => simp [buildProviderParams, jsOrStr]
    | networkError msg => simp [buildProviderParams, jsOrStr]

/-- C6 counterexample: a malformed JSON body is answered by the current
handler with 500 and no error code — not with 400 `JSON_PARSE_ERROR`. -/
theorem json_parse_error_counterexample :
    (handler (some "apikey") (postEvent none (.malformed "Unexpected token"))
        (.ok [1])).1.statusCode = 500 ∧
    (handler (some "apikey") (postEvent none (.malformed "Unexpected token"))
        (.ok [1])).1.statusCode ≠ 400 ∧
    (handler (some "apikey") (postEvent none (.malformed "Unexpected token"))
        (.ok [1])).1.error ≠ some "JSON_PARSE_ERROR" := by
  refine ⟨by decide, by decide, by decide⟩

/-- C6 amended: in the current handler a malformed JSON body falls through to
the generic catch and yields 500 with message `Internal server error: …` and
no error code; the 400 `JSON_PARSE_ERROR` response exists only in the earlier
revision kept as `src/unnamed/part_000`, whose handler does return it. -/
theorem json_parse_policy (apiKey hdr : Option String) (errMsg : String)
    (provider : ProviderResponse) (urlValid : String → Bool)
    (hkey : jsTruthyStr apiKey = true) :
    (handler apiKey (postEvent hdr (.malformed errMsg)) provider).1.statusCode = 500 ∧
    (handler apiKey (postEvent hdr (.malformed errMsg)) provider).1.message
      = some ("Internal server error: " ++ errMsg) ∧
    (handler apiKey (postEvent hdr (.malformed errMsg)) provider).1.error = none ∧
    (Part000.handler apiKey (postEvent hdr (.malformed errMsg))
        urlValid provider).1.statusCode = 400 ∧
    (Part000.handler apiKey (postEvent hdr (.malformed errMsg))
        urlValid provider).1.error = some "JSON_PARSE_ERROR" := by
  simp [handler, Part000.handler, postEvent, hkey]

theorem json_parse_policy_witness :
    (handler (some "apikey") (postEvent none (.malformed "Unexpected end of JSON input"))
        (.ok [1])).1.statusCode = 500 ∧
    (handler (some "apikey") (postEvent none (.malformed "Unexpected end of JSON input"))
        (.ok [1])).1.message
      = some ("Internal server error: " ++ "Unexpected end of JSON input") ∧
    (handler (some "apikey") (postEvent none (.malformed "Unexpected end of JSON input"))
        (.ok [1])).1.error = none ∧
    (Part000.handler (some "apikey")
        (postEvent none (.malformed "Unexpected end of JSON input"))
        (fun _ => true) (.ok [1])).1.statusCode = 400 ∧
    (Part000.handler (some "apikey")
        (postEvent none (.malformed "Unexpected end of JSON input"))
        (fun _ => true) (.ok [1])).1.error = some "JSON_PARSE_ERROR" :=
  json_parse_policy (some "apikey") none "Unexpected end of JSON input"
    (.ok [1]) (fun _ => true) (by decide)

/-- C7 counterexample: with `url` missing the current handler answers 400 but
without the `MISSING_URL` error code, and with an unparseable `url` it makes
the provider call instead of answering 400 `INVALID_URL`. -/
theorem url_validation_counterexample :
    (handler (some "apikey") (postEvent none (.parsed {})) (.ok [1])).1.statusCode
      = 400 ∧
    (handler (some "apikey") (postEvent none (.parsed {})) (.ok [1])).1.error
      ≠ some "MISSING_URL" ∧
    (handler (some "apikey") (postEvent none
        (.parsed { url := some "not a url" })) (.ok [1])).2 ≠ none := by
  refine ⟨by decide, by decide, by decide⟩

/-- C7 amended: the current handler answers 400 with message `URL is
required` and no error code when `url` is missing or empty, makes no provider
call there, and performs no URL-format validation at all (it never produces
`INVALID_URL`); the 400 `MISSING_URL` and 400 `INVALID_URL` responses, the
latter gated on absolute-URL parsing and made without a provider call, exist
in the earlier revision kept as `src/unnamed/part_000`. -/
theorem url_gate_policy (apiKey hdr : Option String) (data : RequestData)
    (provider : ProviderResponse) (urlValid : String → Bool)
    (hkey : jsTruthyStr apiKey = true) :
    (jsTruthyStr data.url = false →
      (handler apiKey (postEvent hdr (.parsed data)) provider).1.statusCode = 400 ∧
      (handler apiKey (postEvent hdr (.parsed data)) provider).1.message
        = some "URL is required" ∧
      (handler apiKey (postEvent hdr (.parsed data)) provider).1.error = none ∧
      (handler apiKey (postEvent hdr (.parsed data)) provider).2 = none ∧
      (Part000.handler apiKey (postEvent hdr (.parsed data))
          urlValid provider).1.statusCode = 400 ∧
      (Part000.handler apiKey (postEvent hdr (.parsed data))
          urlValid provider).1.error = some "MISSING_URL" ∧
      (Part000.handler apiKey (postEvent hdr (.parsed data)) urlValid provider).2
        = none) ∧
    (jsTruthyStr data.url = true → urlValid (data.url.getD "") = false →
      (Part000.handler apiKey (postEvent hdr (.parsed data))
          urlValid provider).1.statusCode = 400 ∧
      (Part000.handler apiKey (postEvent hdr (.parsed data))
          urlValid provider).1.error = some "INVALID_URL" ∧
      (Part000.handler apiKey (postEvent hdr (.parsed data)) urlValid provider).2
        = none) ∧
    (∀ (e : Event) (p : ProviderResponse),
      (handler apiKey e p).1.error ≠ some "INVALID_URL") := by
  refine ⟨?_, ?_, ?_⟩
  · intro hurl
    simp [handler, Part000.handler, postEvent, hkey, hurl]
  · intro hurl hinv
    simp [Part000.handler, postEvent, hkey, hurl, hinv]
  · intro e p
    unfold handler
    split
    · simp
    split
    · simp
    split
    · simp
    split
    · simp
    · dsimp only
      split
      · simp
      split
      · simp
      split
      · simp
      simp

theorem url_gate_policy_witness :
    (Part000.handler (some "apikey") (postEvent none (.parsed {}))
        (fun _ => false) (.ok [1])).1.error = some "MISSING_URL" ∧
    (Part000.handler (some "apikey") (postEvent none
        (.parsed { url := some "not a url" }))
        (fun _ => false) (.ok [1])).1.error = some "INVALID_URL" :=
  ⟨((url_gate_policy (some "apikey") none {} (.ok [1]) (fun _ => false)
      (by decide)).1 (by decide)).2.2.2.2.2.1,
   ((url_gate_policy (some "apikey") none { url := some "not a url" } (.ok [1])
      (fun _ => false) (by decide)).2.1 (by decide) (by decide)).2.1⟩

/-- C5 counterexample: a key of length exactly 10 is classified `starter` and
valid by the gateway's `validateLicense`, but the validate-license endpoint
rejects it with 403 — the two classifiers disagree. -/
theorem endpoint_gateway_counterexample :
    (validateLicense "0123456789").valid = true ∧
    (validateLicense "0123456789").plan = some "starter" ∧
    (ValidateLicense.handler
        { httpMethod := "POST",
          body := (.parsed (some "0123456789") none) }).statusCode = 403 ∧
    (ValidateLicense.handler
        { httpMethod := "POST",
          body := (.parsed (some "0123456789") none) }).valid = some false := by
  refine ⟨by decide, by decide, by decide, by decide⟩

/-- C5 amended: the validate-license endpoint classifies a posted
`license_key` as valid exactly when it is `"free"` (plan `free`) or longer
than 10 characters (plan `starter`), answering 200 when valid and 403
otherwise; it agrees with the gateway classifier for `"free"` and for keys of
length at least 11, but disagrees on short keys (gateway: free) and on
length-10 keys (gateway: starter), both of which it rejects with 403. -/
theorem endpoint_classification (key : String) (su : Option String) :
    ((ValidateLicense.handler
        { httpMethod := "POST",
          body := (.parsed (some key) su) }).statusCode
       = if key = "free" ∨ 10 < key.length then 200 else 403) ∧
    ((ValidateLicense.handler
        { httpMethod := "POST",
          body := (.parsed (some key) su) }).valid
       = some (ValidateLicense.isValidKey (some key))) ∧
    ((ValidateLicense.handler
        { httpMethod := "POST",
          body := (.parsed (some key) su) }).plan
       = some (ValidateLicense.planOfKey (some key))) ∧
    (key = "free" ∨ 11 ≤ key.length →
      ValidateLicense.isValidKey (some key) = (validateLicense key).valid ∧
      (validateLicense key).plan = some (ValidateLicense.planOfKey (some key))) := by
  have hhandler : ValidateLicense.handler
      { httpMethod := "POST",
        body := (.parsed (some key) su) }
      = { statusCode := if ValidateLicense.isValidKey (some key) then 200 else 403,
          valid := some (ValidateLicense.isValidKey (some key)),
          plan := some (ValidateLicense.planOfKey (some key)),
          site_url := su,
          message := some (if ValidateLicense.isValidKey (some key) then "License valid"
            else "Invalid license") } := by
    simp [ValidateLicense.handler]
  refine ⟨?_, ?_, ?_, ?_⟩
  · rw [hhandler]
    by_cases hf : key = "free"
    · subst hf
      simp [ValidateLicense.isValidKey]
    · by_cases hl : 10 < key.length
      · have hne : key ≠ "" := by
          intro h
          subst h
          simp at hl
        simp [ValidateLicense.isValidKey, jsTruthyStr, hf, hl, hne]
      · simp [ValidateLicense.isValidKey, jsTruthyStr, hf, hl]
  · rw [hhandler]
  · rw [hhandler]
  · rintro (rfl | h11)
    · refine ⟨by decide, by decide⟩
    · have hf : key ≠ "free" := by
        intro h
        subst h
        exact absurd h11 (by decide)
      have hne : key ≠ "" := by
        intro h
        subst h
        exact absurd h11 (by decide)
      have h5 : ¬ key.length < 5 := by omega
      have h10 : key.length ≥ 10 := by omega
      have hl : 10 < key.length := by omega
      constructor
      · simp [ValidateLicense.isValidKey, jsTruthyStr, hf, hne, hl, validateLicense, h5, h10]
      · simp [validateLicense, ValidateLicense.planOfKey, hf, hne, h5, h10]

theorem endpoint_classification_witness :
    ("abcdefghijk" = "free" ∨ 11 ≤ ("abcdefghijk" : String).length) ∧
    (ValidateLicense.isValidKey (some "abcdefghijk")
        = (validateLicense "abcdefghijk").valid ∧
      (validateLicense "abcdefghijk").plan
        = some (ValidateLicense.planOfKey (some "abcdefghijk"))) :=
  ⟨Or.inr (by decide),
   (endpoint_classification "abcdefghijk" none).2.2.2 (Or.inr (by decide))⟩

/-- C2 counterexample: the cancellation timer is 8000 ms while the provider
timeout in the query string is 8 seconds — not provider timeout plus one
second of grace — and on abort the gateway answers 500, not 504. -/
theorem timeout_grace_counterexample :
    parseIntJS apiTimeoutSeconds = .int 8 ∧
    fetchAbortTimeoutMs = 8000 ∧
    fetchAbortTimeoutMs ≠ 8 * 1000 + 1000 ∧
    (handler (some "apikey") (postEvent none
        (.parsed { url := some "https://example.com" })) .aborted).1.statusCode = 500 ∧
    (handler (some "apikey") (postEvent none
        (.parsed { url := some "https://example.com" })) .aborted).1.statusCode ≠ 504 := by
  refine ⟨by decide, rfl, by decide, by decide, by decide⟩

/-- C2 amended: the cancellation timer equals the requested provider timeout
exactly (8000 ms against the `'8'`-second query parameter, with no grace
second), and when it fires before the provider responds the in-flight call is
aborted and the gateway returns 500 — not 504 — with a message naming the
configured 8-second timeout. -/
theorem timeout_policy (apiKey hdr : Option String) (data : RequestData)
    (hkey : jsTruthyStr apiKey = true) (hurl : jsTruthyStr data.url = true)
    (hv : (validateLicense (resolveLicense (postEvent hdr (.parsed data)) data)).valid
      = true)
    (hgt : jsGtNum (parseIntJS (jsOrStr (data.options.bind (·.duration)) "3"))
      (getMaxDurationForPlan
        ((validateLicense (resolveLicense (postEvent hdr (.parsed data)) data)).plan.getD ""))
      = false) :
    fetchAbortTimeoutMs = 1000 * 8 ∧
    parseIntJS apiTimeoutSeconds = .int 8 ∧
    (∃ p, (handler apiKey (postEvent hdr (.parsed data)) .aborted).2 = some p ∧
      p.timeout = apiTimeoutSeconds) ∧
    (handler apiKey (postEvent hdr (.parsed data)) .aborted).1.statusCode = 500 ∧
    (handler apiKey (postEvent hdr (.parsed data)) .aborted).1.message
      = some "Failed to create recording: ScreenshotOne API request timed out (8 seconds)" := by
  refine ⟨rfl, by decide, ?_⟩
  simp only [handler, postEvent] at *
  simp [hkey, hurl, hv, hgt, callScreenshotOneAPI, buildProviderParams]

theorem timeout_policy_witness :
    (∃ p, (handler (some "apikey") (postEvent none
        (.parsed { url := some "https://example.com" })) .aborted).2 = some p ∧
      p.timeout = apiTimeoutSeconds) ∧
    (handler (some "apikey") (postEvent none
        (.parsed { url := some "https://example.com" })) .aborted).1.statusCode = 500 ∧
    (handler (some "apikey") (postEvent none
        (.parsed { url := some "https://example.com" })) .aborted).1.message
      = some "Failed to create recording: ScreenshotOne API request timed out (8 seconds)" :=
  (timeout_policy (some "apikey") none { url := some "https://example.com" }
    (by decide) (by decide) (by decide) (by decide)).2.2

/-- C3 counterexample: a provider failure with status 404 is answered by the
gateway with status 500, not with the provider's status code. -/
theorem provider_status_counterexample :
    (handler (some "apikey") (postEvent none
        (.parsed { url := some "https://example.com" }))
        (.httpError 404 "Not Found")).1.statusCode = 500 ∧
    (handler (some "apikey") (postEvent none
        (.parsed { url := some "https://example.com" }))
        (.httpError 404 "Not Found")).1.statusCode ≠ 404 := by
  refine ⟨by decide, by decide⟩

/-- C3 amended: a non-success provider status yields gateway status 500 — not
the provider's status code — with the provider's status and error body
included in the message; a success status with an empty body also yields 500
and never a `success: true` response. -/
theorem upstream_error_policy (apiKey hdr : Option String) (data : RequestData)
    (hkey : jsTruthyStr apiKey = true) (hurl : jsTruthyStr data.url = true)
    (hv : (validateLicense (resolveLicense (postEvent hdr (.parsed data)) data)).valid
      = true)
    (hgt : jsGtNum (parseIntJS (jsOrStr (data.options.bind (·.duration)) "3"))
      (getMaxDurationForPlan
        ((validateLicense (resolveLicense (postEvent hdr (.parsed data)) data)).plan.getD ""))
      = false) :
    (∀ status errorText,
      (handler apiKey (postEvent hdr (.parsed data))
          (.httpError status errorText)).1.statusCode = 500 ∧
      (handler apiKey (postEvent hdr (.parsed data))
          (.httpError status errorText)).1.message
        = some ("Failed to create recording: ScreenshotOne API failed with status "
            ++ toString status ++ ": " ++ errorText)) ∧
    ((handler apiKey (postEvent hdr (.parsed data)) (.ok [])).1.statusCode = 500 ∧
      (handler apiKey (postEvent hdr (.parsed data)) (.ok [])).1.success ≠ some true ∧
      (handler apiKey (postEvent hdr (.parsed data)) (.ok [])).1.message
        = some "Failed to create recording: ScreenshotOne returned empty response") := by
  simp only [handler, postEvent] at *
  constructor
  · intro status errorText
    simp [hkey, hurl, hv, hgt, callScreenshotOneAPI, buildProviderParams,
      ← String.append_assoc]
  · simp [hkey, hurl, hv, hgt, callScreenshotOneAPI, buildProviderParams]

theorem upstream_error_policy_witness :
    ((handler (some "apikey") (postEvent none
        (.parsed { url := some "https://example.com" }))
        (.httpError 404 "Not Found")).1.statusCode = 500 ∧
      (handler (some "apikey") (postEvent none
        (.parsed { url := some "https://example.com" }))
        (.httpError 404 "Not Found")).1.message
        = some ("Failed to create recording: ScreenshotOne API failed with status "
            ++ toString 404 ++ ": " ++ "Not Found")) ∧
    (handler (some "apikey") (postEvent none
        (.parsed { url := some "https://example.com" })) (.ok [])).1.statusCode = 500 :=
  ⟨(upstream_error_policy (some "apikey") none { url := some "https://example.com" }
      (by decide) (by decide) (by decide) (by decide)).1 404 "Not Found",
   (upstream_error_policy (some "apikey") none { url := some "https://example.com" }
      (by decide) (by decide) (by decide) (by decide)).2.1⟩

/-- C9: when the provider answers a success status with a non-empty binary
payload of N bytes, the gateway answers 200 whose `video_data` base64-decodes
back to exactly those N bytes and whose `file_size` equals N. -/
theorem payload_roundtrip (apiKey hdr : Option String) (data : RequestData)
    (hkey : jsTruthyStr apiKey = true) (hurl : jsTruthyStr data.url = true)
    (hv : (validateLicense (resolveLicense (postEvent hdr (.parsed data)) data)).valid
      = true)
    (hgt : jsGtNum (parseIntJS (jsOrStr (data.options.bind (·.duration)) "3"))
      (getMaxDurationForPlan
        ((validateLicense (resolveLicense (postEvent hdr (.parsed data)) data)).plan.getD ""))
      = false)
    (bs : List Nat) (hne : bs ≠ []) (hlt : ∀ b ∈ bs, b < 256) :
    (handler apiKey (postEvent hdr (.parsed data)) (.ok bs)).1.statusCode = 200 ∧
    (handler apiKey (postEvent hdr (.parsed data)) (.ok bs)).1.success = some true ∧
    (handler apiKey (postEvent hdr (.parsed data)) (.ok bs)).1.video_data
      = some (base64Encode bs) ∧
    base64Decode (base64Encode bs) = some bs ∧
    (handler apiKey (postEvent hdr (.parsed data)) (.ok bs)).1.file_size
      = some bs.length := by
  have hrt := base64_roundtrip bs hlt
  simp only [handler, postEvent] at *
  simp [hkey, hurl, hv, hgt, callScreenshotOneAPI, hne, hrt]

theorem payload_roundtrip_witness :
    [0, 255, 16] ≠ ([] : List Nat) ∧
    ((handler (some "apikey") (postEvent none
        (.parsed { url := some "https://example.com" })) (.ok [0, 255, 16])).1.statusCode
        = 200 ∧
      (handler (some "apikey") (postEvent none
        (.parsed { url := some "https://example.com" })) (.ok [0, 255, 16])).1.success
        = some true ∧
      (handler (some "apikey") (postEvent none
        (.parsed { url := some "https://example.com" })) (.ok [0, 255, 16])).1.video_data
        = some (base64Encode [0, 255, 16]) ∧
      base64Decode (base64Encode [0, 255, 16]) = some [0, 255, 16] ∧
      (handler (some "apikey") (postEvent none
        (.parsed { url := some "https://example.com" })) (.ok [0, 255, 16])).1.file_size
        = some ([0, 255, 16] : List Nat).length) :=
  ⟨by decide,
   payload_roundtrip (some "apikey") none { url := some "https://example.com" }
     (by decide) (by decide) (by decide) (by decide) [0, 255, 16] (by decide) (by decide)⟩

theorem nan_duration_bypasses_limit_witness :
    (handler (some "apikey") (postEvent none
        (.parsed { url := some "https://example.com",
                   options := some { duration := some "grape" } })) (.ok [1])).1.error
      ≠ some "DURATION_LIMIT_EXCEEDED" ∧
    ∃ p, (handler (some "apikey") (postEvent none
        (.parsed { url := some "https://example.com",
                   options := some { duration := some "grape" } })) (.ok [1])).2 = some p ∧
      p.duration = "NaN" :=
  nan_duration_bypasses_limit (some "apikey") none
    { url := some "https://example.com", options := some { duration := some "grape" } }
    (.ok [1]) (by decide) (by decide) (by decide) (by decide)

end SRP
